import Mathlib

/-!
Shallow embedding of the Telethon relay service (src/app.py) for checking the
natural-language specification against the code.

Conventions of the embedding:
* The persisted credential record (the JSON file `data/session.json`) is the
  structure `Record`.  Fields that the code deletes with `dict.pop` are
  `Option String` (`none` = key absent); fields that are read back with
  `data.get(k, '')` and only ever overwritten are plain `String` with `""`
  for "absent".  `api_id` is stored as a string (the code stores the string
  form and converts with `int(...)` on read); every handler that stores it
  first validates that `int(api_id)` succeeds, so reachable stored values are
  digit strings and `strToNat?` models the read-side conversion.
* Python truthiness of an optional string field (`data.get(k)`) is `truthy`.
* Each HTTP handler becomes a pure function from the loaded record, the
  (already secret-checked or explicitly flagged) request parameters and an
  environment structure describing the external Telegram collaborator's
  responses, to the record that ends up persisted plus the HTTP response.
  Within one request the handler's repeated `_load_session()` calls observe
  the record produced by its own earlier `_save_session`, which is how the
  single-threaded file behaves.
* Connection accounting: coroutines that can return while a connected client
  was never disconnected report the number of such leaked connections.
-/

namespace Replay

/-- Python truthiness of an optional string field of the JSON record:
`data.get(k)` is truthy iff the key is present with a non-empty string. -/
def truthy (o : Option String) : Bool := o.getD "" ≠ ""

/-- The persisted credential record (contents of `data/session.json`). -/
structure Record where
  api_id : String := ""
  api_hash : String := ""
  phone : String := ""
  session : Option String := none
  phone_code_hash : Option String := none
  temp_session : Option String := none
  qr_temp_session : Option String := none
deriving Repr, DecidableEq

/-- Value of one decimal digit character. -/
def charDigit? (c : Char) : Option Nat :=
  if c = '0' then some 0 else if c = '1' then some 1 else if c = '2' then some 2
  else if c = '3' then some 3 else if c = '4' then some 4 else if c = '5' then some 5
  else if c = '6' then some 6 else if c = '7' then some 7 else if c = '8' then some 8
  else if c = '9' then some 9 else none

/-- Accumulate a decimal value over the remaining characters. -/
def strToNatCore : List Char → Nat → Option Nat
  | [], acc => some acc
  | c :: cs, acc =>
      match charDigit? c with
      | some d => strToNatCore cs (acc * 10 + d)
      | none => none

/-- Python's `int(s)` for the nonnegative decimal strings this service
stores (signs/whitespace forms are unreachable here): `none` models the
`ValueError` path. -/
def strToNat? (s : String) : Option Nat :=
  if s.data = [] then none else strToNatCore s.data 0

/-- `int(data.get('api_id', 0))` on the read side: absent gives `0`;
reachable stored values are validated digit strings. -/
def recApiIdInt (r : Record) : Nat := (strToNat? r.api_id).getD 0

/-- Abstracted HTTP response of a handler (error message, or the shape of the
success payload actually built by the handler). -/
inductive Resp where
  | err (msg : String)
  | okSuccess (name : String) (uid : Nat) (username : String)
  | okNeed2fa
  | okWaiting (token : String)
  | okMsg (msg : String)
  | okQrStart (token : String) (expires : Nat) (tempSession : String)
  | okSimple
deriving Repr, DecidableEq

/-! ## Credential store: `_pull_session_from_pa`, `_load_session` -/

/-- Result of reading the local session file: missing, unreadable/corrupt
(`json.load` raises), or a parsed record. -/
inductive LocalRead where
  | absent
  | corrupt
  | ok (r : Record)
deriving Repr, DecidableEq

/-- What the remote (PythonAnywhere) backup endpoint produced for the pull:
the request/parse raised, the body had no usable `session_data` (missing,
falsy, or not a dict), or a record. -/
inductive PAResp where
  | exc
  | noData
  | record (sd : Record)
deriving Repr, DecidableEq

/-- `_pull_session_from_pa`: a silent no-op when the backup is not configured;
otherwise returns the pulled record only when it is a dict whose `session`
key is truthy, and `none` for every failure or malformed body. -/
def pullSessionFromPA (configured : Bool) (resp : PAResp) : Option Record :=
  if configured = false then none
  else
    match resp with
    | .exc => none
    | .noData => none
    | .record sd => if truthy sd.session then some sd else none

/-- Environment of one `_load_session()` call: the current local file content
(it may have been changed out-of-band between calls), whether the remote
backup is configured (`PA_URL` set and a real secret), the backup's reply,
and whether the local mirror write succeeds. -/
structure LoadEnv where
  localFile : LocalRead := .absent
  paConfigured : Bool := false
  paResp : PAResp := .exc
  writeOk : Bool := true
deriving Repr, DecidableEq

/-- Output of `_load_session()`: the returned record, the new value of the
process-wide `_pa_restore_attempted` flag, whether a remote round-trip was
performed during this call, and the local file content afterwards. -/
structure LoadOut where
  record : Record
  attempted : Bool
  didQuery : Bool
  localAfter : LocalRead
deriving Repr, DecidableEq

/-- Step 3 of `_load_session`: re-read the local file, returning a partial
record if readable and `{}` otherwise. -/
def loadStep3 (attempted didQuery : Bool) (env : LoadEnv) : LoadOut :=
  match env.localFile with
  | .ok d => ⟨d, attempted, didQuery, env.localFile⟩
  | _ => ⟨{}, attempted, didQuery, env.localFile⟩

/-- Step 2 of `_load_session`: if no pull has been attempted this process,
set the flag and pull from the backup; a successful pull is mirrored to the
local file (best effort) and returned; otherwise fall through to step 3.
A remote round-trip happens exactly when the backup is configured. -/
def loadFallback (attempted : Bool) (env : LoadEnv) : LoadOut :=
  if attempted then loadStep3 attempted false env
  else
    match pullSessionFromPA env.paConfigured env.paResp with
    | some pa => ⟨pa, true, env.paConfigured,
        if env.writeOk then .ok pa else env.localFile⟩
    | none => loadStep3 true env.paConfigured env

/-- `_load_session()`: step 1 returns the local record when it has a truthy
`session`; otherwise steps 2 and 3 run. -/
def loadSession (attempted : Bool) (env : LoadEnv) : LoadOut :=
  match env.localFile with
  | .ok d =>
      if truthy d.session then ⟨d, attempted, false, env.localFile⟩
      else loadFallback attempted env
  | _ => loadFallback attempted env

/-- Total number of remote backup queries performed by a sequence of
`_load_session()` calls, threading the `_pa_restore_attempted` flag. -/
def runLoads (attempted : Bool) : List LoadEnv → Nat
  | [] => 0
  | e :: es =>
      (if (loadSession attempted e).didQuery then 1 else 0) +
        runLoads (loadSession attempted e).attempted es

/-! ## `/send-code` -/

/-- `_code_type_name`: map a Telegram `SentCode` type name to its
user-facing delivery-channel label. -/
def code_type_name (n : String) : String :=
  if n = "SentCodeTypeApp" then "Telegram (в приложении)"
  else if n = "SentCodeTypeSms" then "SMS"
  else if n = "SentCodeTypeCall" then "Звонок"
  else if n = "SentCodeTypeFlashCall" then "Flash-звонок"
  else if n = "SentCodeTypeMissedCall" then "Пропущенный звонок"
  else if n = "SentCodeTypeFragmentSms" then "Fragment SMS"
  else if n = "SentCodeTypeEmailCode" then "Email"
  else if n = "SentCodeTypeFirebaseSms" then "Firebase SMS"
  else n

/-- Outcome of the `ResendCodeRequest` call on the old temp session. -/
inductive ResendOutcome where
  | ok (pch ts sentType : String)
  | exc (msg : String)
deriving Repr, DecidableEq

/-- Collaborator behaviour during one `/send-code` request. -/
structure SendCodeEnv where
  connectExc : Option String := none
  client2ConnectExc : Option String := none
  resendOutcome : ResendOutcome := .exc ""
  sendCodeExc : Option String := none
  newPch : String := ""
  newTemp : String := ""
  sentType : String := ""
deriving Repr, DecidableEq

/-- The fresh `send_code_request` tail of `/send-code`'s coroutine.  If the
request raises, the connected client is never disconnected (one leaked
connection) and the credentials saved before the network call remain. -/
def sendCodeFresh (r1 : Record) (env : SendCodeEnv) : Record × Resp × Nat :=
  match env.sendCodeExc with
  | some e => (r1, .err ("Ошибка: " ++ e), 1)
  | none =>
      ({r1 with phone_code_hash := some env.newPch, temp_session := some env.newTemp},
       .okMsg ("Код отправлен через " ++ code_type_name env.sentType), 0)

/-- `/send-code`: validates inputs, persists `api_id/api_hash/phone`
unconditionally, then requests (or, with `force_sms` and a prior transient
pair, resends) a verification code and persists the resulting
`phone_code_hash`/`temp_session` pair.  The third component counts
connections left open at return. -/
def send_codeH (secretOk : Bool) (r : Record) (apiIdStr apiHash phoneArg : String)
    (forceSms : Bool) (env : SendCodeEnv) : Record × Resp × Nat :=
  if secretOk = false then (r, .err "Unauthorized", 0)
  else if apiIdStr = "" ∨ apiHash = "" ∨ phoneArg = "" then
    (r, .err "Заполните API ID, API Hash и телефон", 0)
  else if (strToNat? apiIdStr).isNone then (r, .err "API ID должен быть числом", 0)
  else
    let r1 : Record := {r with api_id := apiIdStr, api_hash := apiHash, phone := phoneArg}
    match env.connectExc with
    | some e => (r1, .err ("Ошибка: " ++ e), 0)
    | none =>
        if forceSms = true ∧ truthy r1.phone_code_hash = true ∧ truthy r1.temp_session = true then
          match env.client2ConnectExc with
          | some e => (r1, .err ("Ошибка: " ++ e), 1)
          | none =>
              match env.resendOutcome with
              | .ok pch ts st =>
                  ({r1 with phone_code_hash := some pch, temp_session := some ts},
                   .okMsg ("Код отправлен через " ++ code_type_name st), 0)
              | .exc _ => sendCodeFresh r1 env
        else sendCodeFresh r1 env

/-! ## `/sign-in` -/

/-- Outcome of `client.sign_in(phone, code, phone_code_hash=...)`. -/
inductive CodeSignResult where
  | ok
  | passwordNeeded
  | exc (msg : String)
deriving Repr, DecidableEq

/-- Collaborator behaviour during one `/sign-in` request. -/
structure SignInEnv where
  connectExc : Option String := none
  codeResult : CodeSignResult := .ok
  pwExc : Option String := none
  authorized : Bool := true
  saved2fa : String := ""
  savedAuth : String := ""
  meName : String := ""
  meId : Nat := 0
  meUsername : String := ""
deriving Repr, DecidableEq

/-- Result dict produced by the `_sign` coroutine. -/
inductive SignRes where
  | error (msg : String)
  | need2fa (updated : String)
  | success (sess nm : String) (uid : Nat) (username : String)
deriving Repr, DecidableEq

/-- The tail of `_sign`: check `is_user_authorized` and build the success
payload with the freshly serialized session, or fail. -/
def signAuthCheck (env : SignInEnv) : SignRes :=
  if env.authorized = true then .success env.savedAuth env.meName env.meId env.meUsername
  else .error "Авторизация не удалась"

/-- The `_sign` coroutine of `/sign-in`; the Bool records whether an
authentication attempt (`client.sign_in`) was made against the collaborator. -/
def signCore (env : SignInEnv) (code password : String) : SignRes × Bool :=
  match env.connectExc with
  | some e => (.error e, false)
  | none =>
      if code ≠ "" ∧ password = "" then
        match env.codeResult with
        | .passwordNeeded => (.need2fa env.saved2fa, true)
        | .exc m => (.error m, true)
        | .ok => (signAuthCheck env, true)
      else if password ≠ "" then
        match env.pwExc with
        | some m => (.error m, true)
        | none => (signAuthCheck env, true)
      else (.error "Введите код или пароль", false)

/-- `/sign-in`: requires a pending code flow (`temp_session` and
`phone_code_hash`), then runs `_sign` and persists its outcome.  Returns the
persisted record, the response, and whether a collaborator authentication
attempt was made. -/
def sign_inH (secretOk : Bool) (r : Record) (code password : String)
    (env : SignInEnv) : Record × Resp × Bool :=
  if secretOk = false then (r, .err "Unauthorized", false)
  else if truthy r.temp_session = false ∨ truthy r.phone_code_hash = false then
    (r, .err "Сначала отправьте код", false)
  else
    match signCore env code password with
    | (.error m, a) => (r, .err m, a)
    | (.need2fa u, a) => ({r with temp_session := some u}, .okNeed2fa, a)
    | (.success s nm uid un, a) =>
        ({r with session := some s, temp_session := none, phone_code_hash := none},
         .okSuccess nm uid un, a)

/-! ## `/import-session` -/

/-- Collaborator behaviour during one `/import-session` request. -/
structure ImportEnv where
  connectExc : Option String := none
  authorized : Bool := true
  savedAuth : String := ""
  meName : String := ""
  meId : Nat := 0
  meUsername : String := ""
  mePhone : String := ""
deriving Repr, DecidableEq

/-- `/import-session`: validate the supplied string session by connecting and
checking authorization; on success overwrite `session/api_id/api_hash/phone`
and pop `temp_session` and `phone_code_hash` (the code-flow transients). -/
def sessionImport (secretOk : Bool) (r : Record) (sessionString apiIdStr apiHash : String)
    (env : ImportEnv) : Record × Resp :=
  if secretOk = false then (r, .err "Unauthorized")
  else if sessionString = "" then (r, .err "session_string обязателен")
  else if apiIdStr = "" ∨ apiHash = "" then (r, .err "api_id и api_hash обязательны")
  else if (strToNat? apiIdStr).isNone then (r, .err "API ID должен быть числом")
  else
    match env.connectExc with
    | some e => (r, .err e)
    | none =>
        if env.authorized = false then (r, .err "Сессия невалидна или истекла")
        else
          let r2 : Record :=
            {r with session := some env.savedAuth, api_id := apiIdStr,
                    api_hash := apiHash, phone := env.mePhone,
                    temp_session := none, phone_code_hash := none}
          (r2, .okSuccess env.meName env.meId env.meUsername)

/-! ## `/qr-login/start`, `/qr-login/check`, `/qr-login/2fa` -/

/-- Outcome of the `ExportLoginTokenRequest` in `/qr-login/start`. -/
inductive QrStartCore where
  | token (tokenB64 : String) (expires : Nat) (tempSession : String)
  | otherType (n : String)
  | exc (msg : String)
deriving Repr, DecidableEq

/-- `/qr-login/start`: issue a login token on a fresh anonymous connection
and persist it (with the credentials) as `qr_temp_session`. -/
def qr_startH (secretOk : Bool) (r : Record) (apiIdStr apiHash : String)
    (core : QrStartCore) : Record × Resp :=
  if secretOk = false then (r, .err "Unauthorized")
  else if apiIdStr = "" ∨ apiHash = "" then (r, .err "api_id и api_hash обязательны")
  else if (strToNat? apiIdStr).isNone then (r, .err "API ID должен быть числом")
  else
    match core with
    | .exc m => (r, .err m)
    | .otherType n => (r, .err ("Unexpected result: " ++ n))
    | .token tk ex ts =>
        ({r with qr_temp_session := some ts, api_id := apiIdStr, api_hash := apiHash},
         .okQrStart tk ex ts)

/-- A collaborator call that can return, raise the password-needed
condition, or raise some other exception. -/
inductive CallOutcome (α : Type) where
  | ret (a : α)
  | pwNeeded
  | exc (msg : String)
deriving Repr, DecidableEq

/-- The finite result kinds of `ExportLoginTokenRequest` in `/qr-login/check`. -/
inductive ExportResult where
  | token (tokenB64 : String) (expires : Nat)
  | migrateTo (dc : Nat)
  | success
  | otherType (n : String)
deriving Repr, DecidableEq

/-- Collaborator behaviour during one `/qr-login/check` request; the
`migrateOutcome` Bool says whether `ImportLoginTokenRequest` on the new DC
returned `LoginTokenSuccess`. -/
structure QrCheckEnv where
  connectExc : Option String := none
  exportOutcome : CallOutcome ExportResult := .ret .success
  migrateOutcome : CallOutcome Bool := .ret true
  authorized : Bool := true
  savedAuth : String := ""
  savedTemp : String := ""
  meName : String := ""
  meId : Nat := 0
  meUsername : String := ""
  mePhone : String := ""
deriving Repr, DecidableEq

/-- Result dict produced by the QR coroutines. -/
inductive QrRes where
  | error (msg : String)
  | success (sess nm : String) (uid : Nat) (username phone : String)
  | waitingToken (token temp : String)
  | waitingNone
  | need2fa (temp : String)
deriving Repr, DecidableEq

/-- The `_check` coroutine of `/qr-login/check`. -/
def qrCheckCore (env : QrCheckEnv) : QrRes :=
  match env.connectExc with
  | some m => .error m
  | none =>
      match env.exportOutcome with
      | .pwNeeded => .need2fa env.savedTemp
      | .exc m => .error m
      | .ret .success =>
          if env.authorized = true then
            .success env.savedAuth env.meName env.meId env.meUsername env.mePhone
          else .error "Авторизация не завершена"
      | .ret (.migrateTo _) =>
          match env.migrateOutcome with
          | .pwNeeded => .need2fa env.savedTemp
          | .exc m => .error m
          | .ret ok2 =>
              if ok2 = true ∧ env.authorized = true then
                .success env.savedAuth env.meName env.meId env.meUsername env.mePhone
              else .error "Миграция DC не удалась"
      | .ret (.token tk _) => .waitingToken tk env.savedTemp
      | .ret (.otherType _) => .waitingNone

/-- `/qr-login/check`: requires a pending QR flow; updates `qr_temp_session`
when the result carries a truthy refreshed temp session; on confirmed login
persists `session`/`phone` and pops `qr_temp_session`. -/
def qr_checkH (secretOk : Bool) (r : Record) (env : QrCheckEnv) : Record × Resp :=
  if secretOk = false then (r, .err "Unauthorized")
  else if truthy r.qr_temp_session = false ∨ recApiIdInt r = 0 then
    (r, .err "Сначала запустите QR вход")
  else
    match qrCheckCore env with
    | .error m => (r, .err m)
    | .waitingToken tk temp =>
        (if temp ≠ "" then {r with qr_temp_session := some temp} else r, .okWaiting tk)
    | .need2fa temp =>
        (if temp ≠ "" then {r with qr_temp_session := some temp} else r, .okNeed2fa)
    | .success s nm uid un ph =>
        ({r with session := some s, phone := ph, qr_temp_session := none},
         .okSuccess nm uid un)
    | .waitingNone => (r, .okWaiting "")

/-- Outcome of `client.sign_in(password=...)` in `/qr-login/2fa`. -/
inductive PwOutcome where
  | ok
  | invalid
  | exc (msg : String)
deriving Repr, DecidableEq

/-- Collaborator behaviour during one `/qr-login/2fa` request. -/
structure Qr2faEnv where
  connectExc : Option String := none
  pwOutcome : PwOutcome := .ok
  authorized : Bool := true
  savedAuth : String := ""
  meName : String := ""
  meId : Nat := 0
  meUsername : String := ""
  mePhone : String := ""
deriving Repr, DecidableEq

/-- The `_2fa` coroutine of `/qr-login/2fa`. -/
def qr2faCore (env : Qr2faEnv) : QrRes :=
  match env.connectExc with
  | some m => .error m
  | none =>
      match env.pwOutcome with
      | .invalid => .error "Неверный пароль"
      | .exc m => .error m
      | .ok =>
          if env.authorized = true then
            .success env.savedAuth env.meName env.meId env.meUsername env.mePhone
          else .error "Авторизация не завершена"

/-- `/qr-login/2fa`: requires a password and a pending QR flow; on success
persists `session`/`phone` and pops `qr_temp_session`. -/
def qr_2faH (secretOk : Bool) (r : Record) (password : String)
    (env : Qr2faEnv) : Record × Resp :=
  if secretOk = false then (r, .err "Unauthorized")
  else if password = "" then (r, .err "Введите пароль")
  else if truthy r.qr_temp_session = false then (r, .err "Нет активной QR сессии")
  else
    match qr2faCore env with
    | .error m => (r, .err m)
    | .success s nm uid un ph =>
        ({r with session := some s, phone := ph, qr_temp_session := none},
         .okSuccess nm uid un)
    | _ => (r, .err "Неизвестная ошибка")

/-! ## `/disconnect` -/

/-- `/disconnect`: pops `session`, `temp_session` and `phone_code_hash` from
the record and saves it. -/
def disconnectH (secretOk : Bool) (r : Record) : Record × Resp :=
  if secretOk = false then (r, .err "Unauthorized")
  else ({r with session := none, temp_session := none, phone_code_hash := none}, .okSimple)

/-! ## `/get-star-gifts` and `/send-gift` -/

/-- A star-gift catalog entry, with the fields `/send-gift`'s pre-flight
check reads. -/
structure Gift where
  id : Nat
  stars : Nat
  title : String
  sold_out : Bool
deriving Repr, DecidableEq

/-- Collaborator behaviour during the `_fetch` coroutine of
`/get-star-gifts`.  The best-effort balance lookup and per-item thumbnail
downloads only affect logging/extra payload fields and are omitted. -/
structure GiftsEnv where
  clientNone : Bool := false
  connectExc : Option String := none
  authorized : Bool := true
  catalogExc : Option String := none
  catalog : List Gift := []
deriving Repr, DecidableEq

/-- Return value of `_fetch`: the early paths return a 2-tuple
`(None, msg)`, the normal paths a 3-tuple. -/
inductive FetchRet where
  | pair (msg : String)
  | ok (gifts : List Gift)
  | excT (msg : String)
deriving Repr, DecidableEq

/-- The `_fetch` coroutine of `/get-star-gifts`; the Nat counts connections
still open when the coroutine returns.  The unauthorized path returns
without calling `client.disconnect()`. -/
def starGiftsFetch (env : GiftsEnv) : FetchRet × Nat :=
  if env.clientNone then (.pair "Клиент не создан", 0)
  else
    match env.connectExc with
    | some e => (.excT e, 0)
    | none =>
        if env.authorized = false then (.pair "Сессия истекла", 1)
        else
          match env.catalogExc with
          | some e => (.excT e, 0)
          | none => (.ok env.catalog, 0)

/-- Collaborator behaviour during the `_send` coroutine of `/send-gift`.
`catalogExc = true` means the catalog re-fetch raised (the code logs and
proceeds anyway); the diagnostic balance probe is log-only and omitted. -/
structure SendGiftEnv where
  clientNone : Bool := false
  connectExc : Option String := none
  authorized : Bool := true
  resolveExc : Option String := none
  catalogExc : Bool := false
  catalog : List Gift := []
  formExc : Option String := none
  confirmExc : Option String := none
deriving Repr, DecidableEq

/-- Output of `_send`: outcome, error text, whether the payment-form and
confirm RPCs were issued, and connections left open at return. -/
structure SendGiftOut where
  ok : Bool
  err : String
  formRequested : Bool
  confirmAttempted : Bool
  leaked : Nat
deriving Repr, DecidableEq

/-- `f"{a['id']}({a['stars']}⭐)"`: how one available alternative is
rendered in the pre-flight error. -/
def fmtGift (g : Gift) : String :=
  toString g.id ++ "(" ++ toString g.stars ++ "⭐)"

/-- Tail of `', '.join`: the remaining elements each prefixed by `", "`. -/
def joinCommaRest : List String → String
  | [] => ""
  | a :: rest => ", " ++ a ++ joinCommaRest rest

/-- `', '.join(l)`. -/
def joinComma : List String → String
  | [] => ""
  | a :: rest => a ++ joinCommaRest rest

/-- The non-sold-out catalog entries, in catalog order (the `avail`
comprehension of `/send-gift`). -/
def availAlternatives (catalog : List Gift) : List Gift :=
  catalog.filter (fun g => !g.sold_out)

/-- The pre-flight error message of `/send-gift` for an unknown gift id,
listing the first twenty available alternatives with prices. -/
def stargiftInvalidMsg (giftId : Nat) (catalog : List Gift) : String :=
  "STARGIFT_INVALID: подарок " ++ toString giftId ++
    " не найден в каталоге Telegram. Доступные ID: " ++
    joinComma (((availAlternatives catalog).take 20).map fmtGift)

/-- The `_send` coroutine of `/send-gift`.  The pre-flight check tests only
membership of `gift_id` in the id set of the fetched catalog (sold-out
entries included); the unauthorized path returns without disconnecting. -/
def sendGiftCore (giftId : Nat) (env : SendGiftEnv) : SendGiftOut :=
  if env.clientNone then ⟨false, "Клиент не создан", false, false, 0⟩
  else
    match env.connectExc with
    | some e => ⟨false, e, false, false, 0⟩
    | none =>
        if env.authorized = false then
          ⟨false, "Сессия истекла, переавторизуйтесь", false, false, 1⟩
        else
          match env.resolveExc with
          | some e => ⟨false, e, false, false, 0⟩
          | none =>
              if env.catalogExc = false ∧ giftId ∉ env.catalog.map Gift.id then
                ⟨false, stargiftInvalidMsg giftId env.catalog, false, false, 0⟩
              else
                match env.formExc with
                | some e => ⟨false, e, true, false, 0⟩
                | none =>
                    match env.confirmExc with
                    | some e => ⟨false, e, true, true, 0⟩
                    | none => ⟨true, "", true, true, 0⟩

/-- `/send-gift` handler around `_send`: parameter and session checks, then
the coroutine's outcome mapped to the HTTP response. -/
def send_giftH (secretOk : Bool) (r : Record) (userId giftId : Nat)
    (env : SendGiftEnv) : Resp :=
  if secretOk = false then .err "Unauthorized"
  else if userId = 0 ∨ giftId = 0 then .err "user_id and gift_id required"
  else if truthy r.session = false then .err "Сессия не настроена"
  else if (sendGiftCore giftId env).ok then .okSimple
  else .err (sendGiftCore giftId env).err

/-! ## Concrete inputs used by counterexamples and witnesses -/

/-- A record with an in-progress QR login. -/
def rQ : Record := {qr_temp_session := some "Q"}

/-- An import environment whose session string validates as authorized. -/
def envImp : ImportEnv := {savedAuth := "S", mePhone := "123"}

/-- A send-gift environment whose catalog lists gift 5 as sold out. -/
def envC3 : SendGiftEnv := {catalog := [⟨5, 10, "", true⟩]}

/-- A send-gift environment whose catalog has one available gift, id 7 at 25
stars, and does not list gift 5. -/
def envC3w : SendGiftEnv := {catalog := [⟨7, 25, "", false⟩]}

/-- An executor environment whose client reports the session unauthorized. -/
def envLeakG : GiftsEnv := {authorized := false}

/-- A send-gift environment whose client reports the session unauthorized. -/
def envLeakS : SendGiftEnv := {authorized := false}

/-! ## Claim C1 -/

/-- Claim C1 counterexample: a successful `/import-session` on a record with
an in-progress QR login does NOT clear `qr_temp_session` (the code pops only
`temp_session` and `phone_code_hash`), contradicting the claim that every
transient field of the other flows is cleared. -/
theorem c1_counterexample :
    (sessionImport true rQ "STR" "7" "h" envImp).2 =
      .okSuccess envImp.meName envImp.meId envImp.meUsername ∧
    (sessionImport true rQ "STR" "7" "h" envImp).1.qr_temp_session = some "Q" := by
  decide

/-- Claim C1 (amended): a successful `/import-session` overwrites
`session/api_id/api_hash/phone` and clears the code flow's transients
`phone_code_hash` and `temp_session`, but leaves `qr_temp_session`
unchanged. -/
theorem c1_import_overwrites (r : Record) (ss aid ah : String) (env : ImportEnv)
    (hss : ss ≠ "") (haid0 : aid ≠ "") (hah : ah ≠ "")
    (haidN : (strToNat? aid).isNone = false)
    (hc : env.connectExc = none) (hauth : env.authorized = true) :
    sessionImport true r ss aid ah env =
      ({r with session := some env.savedAuth, api_id := aid,
               api_hash := ah, phone := env.mePhone,
               temp_session := none, phone_code_hash := none},
       .okSuccess env.meName env.meId env.meUsername) := by
  simp [sessionImport, hss, haid0, hah, haidN, hc, hauth]

/-- Witness for C1's amended theorem at a concrete input. -/
theorem c1_witness :
    sessionImport true rQ "STR" "7" "h" envImp =
      ({rQ with session := some envImp.savedAuth, api_id := "7",
                api_hash := "h", phone := envImp.mePhone,
                temp_session := none, phone_code_hash := none},
       .okSuccess envImp.meName envImp.meId envImp.meUsername) :=
  c1_import_overwrites rQ "STR" "7" "h" envImp (by decide) (by decide) (by decide)
    (by decide) rfl rfl

/-! ## Claim C2 -/

/-- Claim C2 counterexample: `/disconnect` on a record with an in-progress
QR login succeeds but leaves `qr_temp_session` in the persisted record,
contradicting the claim that all transient fields are cleared. -/
theorem c2_counterexample :
    (disconnectH true rQ).2 = .okSimple ∧
    (disconnectH true rQ).1.qr_temp_session = some "Q" := by
  decide

/-- Claim C2 (amended): `/disconnect` clears `session`, `temp_session` and
`phone_code_hash` from the persisted record and returns success;
`qr_temp_session` is not cleared. -/
theorem c2_disconnect_clears (r : Record) :
    disconnectH true r =
      ({r with session := none, temp_session := none, phone_code_hash := none},
       .okSimple) := rfl

/-! ## Claim C3 -/

/-- Claim C3 counterexample: `/send-gift` for a gift id that IS listed in the
freshly fetched catalog but marked sold out proceeds to request the payment
form and confirm the payment (the pre-flight check only tests id
membership), contradicting the claim. -/
theorem c3_counterexample :
    envC3.catalog = [{ id := 5, stars := 10, title := "", sold_out := true }] ∧
    (sendGiftCore 5 envC3).formRequested = true ∧
    (sendGiftCore 5 envC3).confirmAttempted = true ∧
    (sendGiftCore 5 envC3).ok = true := by
  decide

/-- Claim C3 (amended): on an authorized session, if the requested gift id is
not listed in the freshly fetched catalog, `/send-gift` requests no payment
form and confirms no payment, and its error names at least one currently
available (non-sold-out) alternative id with its star price whenever any
exist.  (A gift id that is listed but sold out is NOT rejected.) -/
theorem c3_precheck (gid : Nat) (env : SendGiftEnv)
    (h1 : env.clientNone = false) (h2 : env.connectExc = none)
    (h3 : env.authorized = true) (h4 : env.resolveExc = none)
    (h5 : env.catalogExc = false) (h6 : gid ∉ env.catalog.map Gift.id) :
    (sendGiftCore gid env).formRequested = false ∧
    (sendGiftCore gid env).confirmAttempted = false ∧
    (sendGiftCore gid env).ok = false ∧
    (availAlternatives env.catalog ≠ [] →
      ∃ g, g ∈ env.catalog ∧ g.sold_out = false ∧
        ∃ post, (sendGiftCore gid env).err =
          ("STARGIFT_INVALID: подарок " ++ toString gid ++
            " не найден в каталоге Telegram. Доступные ID: ") ++
            (fmtGift g ++ post)) := by
  have hcore : sendGiftCore gid env =
      ⟨false, stargiftInvalidMsg gid env.catalog, false, false, 0⟩ := by
    simp [sendGiftCore, h1, h2, h3, h4, h5, h6]
  refine ⟨by rw [hcore], by rw [hcore], by rw [hcore], ?_⟩
  intro hne
  rcases havail : availAlternatives env.catalog with _ | ⟨g, gs⟩
  · exact absurd havail hne
  · have hg : g ∈ availAlternatives env.catalog := by
      rw [havail]; exact List.mem_cons_self _ _
    refine ⟨g, (List.mem_filter.mp hg).1, ?_, ?_⟩
    · have := (List.mem_filter.mp hg).2
      simpa using this
    · refine ⟨joinCommaRest ((gs.take 19).map fmtGift), ?_⟩
      rw [hcore]
      show stargiftInvalidMsg gid env.catalog = _
      unfold stargiftInvalidMsg
      rw [havail]
      rfl

/-- Witness for C3's amended theorem at a concrete input: gift 5 is absent
from a catalog whose only entry is the available gift 7 at 25 stars. -/
theorem c3_witness :
    (sendGiftCore 5 envC3w).formRequested = false ∧
    (sendGiftCore 5 envC3w).confirmAttempted = false ∧
    (sendGiftCore 5 envC3w).ok = false ∧
    (availAlternatives envC3w.catalog ≠ [] →
      ∃ g, g ∈ envC3w.catalog ∧ g.sold_out = false ∧
        ∃ post, (sendGiftCore 5 envC3w).err =
          ("STARGIFT_INVALID: подарок " ++ toString 5 ++
            " не найден в каталоге Telegram. Доступные ID: ") ++
            (fmtGift g ++ post)) :=
  c3_precheck 5 envC3w rfl rfl rfl rfl rfl (by decide)

/-! ## Claim C4 -/

/-- Claim C4 evaluated at the failing input: with a stored session whose
client reports unauthorized, both `/get-star-gifts` and `/send-gift` return
their "session expired" outcome while leaving the freshly opened connection
undisconnected (one leaked connection), contradicting the claim that every
opened connection is released before the operation returns. -/
theorem c4_unreleased_connection :
    starGiftsFetch envLeakG = (.pair "Сессия истекла", 1) ∧
    (sendGiftCore 1 envLeakS).leaked = 1 ∧
    (sendGiftCore 1 envLeakS).err = "Сессия истекла, переавторизуйтесь" := by
  decide

/-! ## Store lemmas shared by claims C5, C6 and C10 -/

/-- Step 1 hit: a local record with a truthy session is returned as is. -/
theorem loadSession_ok_truthy (att : Bool) (env : LoadEnv) (d : Record)
    (hl : env.localFile = .ok d) (ht : truthy d.session = true) :
    loadSession att env = ⟨d, att, false, env.localFile⟩ := by
  simp [loadSession, hl, ht]

/-- Step 1 miss: without a truthy local session, `load()` is the fallback. -/
theorem loadSession_no_truthy (att : Bool) (env : LoadEnv)
    (hfall : ∀ d, env.localFile = .ok d → truthy d.session = false) :
    loadSession att env = loadFallback att env := by
  cases hl : env.localFile with
  | ok d => simp [loadSession, hl, hfall d hl]
  | absent => simp [loadSession, hl]
  | corrupt => simp [loadSession, hl]

/-- With the restore flag set, the fallback is just the local re-read. -/
theorem loadFallback_attempted (env : LoadEnv) :
    loadFallback true env = loadStep3 true false env := by
  simp [loadFallback]

/-- First-time fallback with a successful pull. -/
theorem loadFallback_pull_some (env : LoadEnv) (pa : Record)
    (h : pullSessionFromPA env.paConfigured env.paResp = some pa) :
    loadFallback false env =
      ⟨pa, true, env.paConfigured, if env.writeOk then .ok pa else env.localFile⟩ := by
  simp [loadFallback, h]

/-- First-time fallback with an empty pull. -/
theorem loadFallback_pull_none (env : LoadEnv)
    (h : pullSessionFromPA env.paConfigured env.paResp = none) :
    loadFallback false env = loadStep3 true env.paConfigured env := by
  simp [loadFallback, h]

/-- Bookkeeping fields of step 3. -/
theorem loadStep3_fields (a q : Bool) (env : LoadEnv) :
    (loadStep3 a q env).attempted = a ∧ (loadStep3 a q env).didQuery = q ∧
      (loadStep3 a q env).localAfter = env.localFile := by
  cases h : env.localFile <;> simp [loadStep3, h]

/-- Step 3 returns the local record when it is readable. -/
theorem loadStep3_record (a q : Bool) (env : LoadEnv) (d : Record)
    (hl : env.localFile = .ok d) : (loadStep3 a q env).record = d := by
  simp [loadStep3, hl]

/-- Either step 1 hits, or no local record has a truthy session. -/
theorem loadSession_dichotomy (env : LoadEnv) :
    (∃ d, env.localFile = .ok d ∧ truthy d.session = true) ∨
      (∀ d, env.localFile = .ok d → truthy d.session = false) := by
  by_cases h : ∃ d, env.localFile = .ok d ∧ truthy d.session = true
  · exact Or.inl h
  · refine Or.inr fun d hd => ?_
    by_contra hc
    exact h ⟨d, hd, by simpa using hc⟩

/-! ## Claim C5 -/

/-- A partial local record: credentials but no session. -/
def r5 : Record := {api_id := "7", phone := "p"}

/-- Store environment: local partial record, reachable remote backup holding
a full session record. -/
def env5 : LoadEnv :=
  {localFile := .ok r5, paConfigured := true, paResp := .record {session := some "S"}}

/-- Store environment: local partial record, backup not configured. -/
def env5w : LoadEnv := {localFile := .ok r5, paConfigured := false, paResp := .exc}

/-- Claim C5 counterexample: with a partial local record (no `session`,
other fields present) and a first-time reachable remote backup, `load()`
returns the pulled backup record, not the partial local one — the remote
pull runs before the partial-record fallback. -/
theorem c5_counterexample :
    r5.session = none ∧ r5.api_id ≠ "" ∧
    (loadSession false env5).record = {session := some "S"} ∧
    (loadSession false env5).record ≠ r5 := by
  decide

/-- Claim C5 (amended): a partial local record (no truthy `session`) is
returned by `load()` whenever no successful remote pull intervenes: when the
pull was already attempted this process, or the pull yields no record
(disabled, failed, or empty backup).  A successful first-time pull returns
the pulled record instead. -/
theorem c5_partial_preserved (att : Bool) (env : LoadEnv) (r : Record)
    (hl : env.localFile = .ok r) (hs : truthy r.session = false)
    (hp : att = true ∨ pullSessionFromPA env.paConfigured env.paResp = none) :
    (loadSession att env).record = r := by
  have hfall : ∀ d, env.localFile = .ok d → truthy d.session = false := by
    intro d hd
    rw [hl] at hd
    injection hd with hrd
    rw [← hrd]
    exact hs
  rw [loadSession_no_truthy att env hfall]
  rcases hp with h | h
  · rw [h, loadFallback_attempted]
    exact loadStep3_record _ _ _ _ hl
  · cases att
    · rw [loadFallback_pull_none env h]
      exact loadStep3_record _ _ _ _ hl
    · rw [loadFallback_attempted]
      exact loadStep3_record _ _ _ _ hl

/-- Witness for C5's amended theorem at a concrete input (backup disabled,
so the pull yields nothing). -/
theorem c5_witness : (loadSession false env5w).record = r5 :=
  c5_partial_preserved false env5w r5 rfl (by decide) (Or.inr (by decide))

/-! ## Claim C6 -/

/-- Once the restore flag is set, `load()` performs no remote query and the
flag stays set. -/
theorem loadSession_after_attempt (env : LoadEnv) :
    (loadSession true env).didQuery = false ∧ (loadSession true env).attempted = true := by
  rcases loadSession_dichotomy env with ⟨d, hl, ht⟩ | hfall
  · rw [loadSession_ok_truthy true env d hl ht]
    exact ⟨rfl, rfl⟩
  · rw [loadSession_no_truthy true env hfall, loadFallback_attempted]
    exact ⟨(loadStep3_fields _ _ _).2.1, (loadStep3_fields _ _ _).1⟩

/-- A `load()` that performed a remote query leaves the restore flag set. -/
theorem loadSession_query_sets_flag (att : Bool) (env : LoadEnv)
    (h : (loadSession att env).didQuery = true) :
    (loadSession att env).attempted = true := by
  cases att
  · rcases loadSession_dichotomy env with ⟨d, hl, ht⟩ | hfall
    · rw [loadSession_ok_truthy false env d hl ht] at h
      exact absurd h (by simp)
    · rw [loadSession_no_truthy false env hfall] at h ⊢
      cases hp : pullSessionFromPA env.paConfigured env.paResp
      · rw [loadFallback_pull_none env hp] at h ⊢
        exact (loadStep3_fields _ _ _).1
      · rw [loadFallback_pull_some env _ hp] at h ⊢
  · exact (loadSession_after_attempt env).2

/-- With the flag already set, a sequence of loads performs no query. -/
theorem runLoads_after_attempt (envs : List LoadEnv) : runLoads true envs = 0 := by
  induction envs with
  | nil => rfl
  | cons e es ih =>
      simp [runLoads, (loadSession_after_attempt e).1, (loadSession_after_attempt e).2, ih]

/-- Claim C6: within one process lifetime (flag initially unset), any
sequence of `load()` calls — each with an arbitrary local-file state and
backup behaviour, modelling out-of-band clearing — performs at most one
remote backup query; and once a pull has been attempted, a single `load()`
performs no remote query at all. -/
theorem c6_single_pull :
    (∀ envs : List LoadEnv, runLoads false envs ≤ 1) ∧
    (∀ env : LoadEnv, (loadSession true env).didQuery = false) := by
  constructor
  · intro envs
    induction envs with
    | nil => exact Nat.zero_le 1
    | cons e es ih =>
        simp only [runLoads]
        by_cases hq : (loadSession false e).didQuery = true
        · rw [if_pos hq, loadSession_query_sets_flag false e hq, runLoads_after_attempt]
        · rw [if_neg hq, Nat.zero_add]
          cases ha : (loadSession false e).attempted
          · exact ih
          · rw [runLoads_after_attempt]
            exact Nat.zero_le 1
  · exact fun env => (loadSession_after_attempt env).1

/-! ## Claim C10 -/

/-- A successful remote pull always carries a truthy `session`. -/
theorem pull_some_truthy (cfg : Bool) (resp : PAResp) (r : Record)
    (h : pullSessionFromPA cfg resp = some r) : truthy r.session = true := by
  unfold pullSessionFromPA at h
  split at h
  · exact absurd h (by simp)
  · cases resp with
    | exc => exact absurd h (by simp)
    | noData => exact absurd h (by simp)
    | record sd =>
        simp only at h
        split at h
        · cases h; assumption
        · exact absurd h (by simp)

/-- Store environment used by C10's witness: empty local store, configured
backup holding a session record. -/
def env10 : LoadEnv :=
  {localFile := .absent, paConfigured := true, paResp := .record {session := some "S"}}

/-- Claim C10: the remote pull never yields a record without a truthy
`session` (malformed, non-record, or session-less replies become "no
backup"); consequently whenever `load()` touches the local file, it is
mirroring a pulled record that it also returns, and that record has a
truthy `session`. -/
theorem c10_pull_requires_session :
    (∀ (cfg : Bool) (resp : PAResp) (r : Record),
       pullSessionFromPA cfg resp = some r → truthy r.session = true) ∧
    (∀ (att : Bool) (env : LoadEnv),
       (loadSession att env).localAfter ≠ env.localFile →
       ∃ r, pullSessionFromPA env.paConfigured env.paResp = some r ∧
         (loadSession att env).localAfter = .ok r ∧
         (loadSession att env).record = r ∧ truthy r.session = true) := by
  refine ⟨pull_some_truthy, ?_⟩
  intro att env h
  rcases loadSession_dichotomy env with ⟨d, hl, ht⟩ | hfall
  · rw [loadSession_ok_truthy att env d hl ht] at h
    exact absurd rfl h
  · rw [loadSession_no_truthy att env hfall] at h ⊢
    cases att
    · cases hp : pullSessionFromPA env.paConfigured env.paResp with
      | none =>
          rw [loadFallback_pull_none env hp] at h
          exact absurd (loadStep3_fields _ _ _).2.2 h
      | some pa =>
          rw [loadFallback_pull_some env pa hp] at h ⊢
          cases hw : env.writeOk
          · rw [hw] at h
            exact absurd (by simp) h
          · exact ⟨pa, rfl, by simp, rfl, pull_some_truthy _ _ _ hp⟩
    · rw [loadFallback_attempted] at h
      exact absurd (loadStep3_fields _ _ _).2.2 h

/-- Witness for C10 at a concrete input: the first load on an empty local
store with a configured backup mirrors the pulled session record. -/
theorem c10_witness :
    ∃ r, pullSessionFromPA env10.paConfigured env10.paResp = some r ∧
      (loadSession false env10).localAfter = .ok r ∧
      (loadSession false env10).record = r ∧ truthy r.session = true :=
  c10_pull_requires_session.2 false env10 (by decide)

/-! ## Claim C7 -/

/-- `_sign` produces a success payload only after `is_user_authorized`
confirmed, and its session value is the serialized connection. -/
theorem signCore_success_inv (env : SignInEnv) (c p s nm : String) (uid : Nat)
    (un : String) (a : Bool) (h : signCore env c p = (.success s nm uid un, a)) :
    env.authorized = true ∧ s = env.savedAuth := by
  unfold signCore signAuthCheck at h
  repeat' split at h
  all_goals simp_all

/-- `_check` produces a success payload only after `is_user_authorized`
confirmed, and its session value is the serialized connection. -/
theorem qrCheckCore_success_inv (env : QrCheckEnv) (s nm : String) (uid : Nat)
    (un ph : String) (h : qrCheckCore env = .success s nm uid un ph) :
    env.authorized = true ∧ s = env.savedAuth := by
  unfold qrCheckCore at h
  repeat' split at h
  all_goals simp_all

/-- `_2fa` produces a success payload only after `is_user_authorized`
confirmed, and its session value is the serialized connection. -/
theorem qr2faCore_success_inv (env : Qr2faEnv) (s nm : String) (uid : Nat)
    (un ph : String) (h : qr2faCore env = .success s nm uid un ph) :
    env.authorized = true ∧ s = env.savedAuth := by
  unfold qr2faCore at h
  repeat' split at h
  all_goals simp_all

/-- Claim C7: across all record-mutating operations, the stored `session` is
only ever changed to (a) `none` by `/disconnect`'s pop, or (b) the
collaborator's freshly serialized session, in a success branch entered only
after `is_user_authorized` confirmed; `/send-code` and `/qr-login/start`
never touch `session`; and the only other write path, `load()`'s mirror of a
pulled backup record, happens only when the local record has no truthy
session (so no stored session is ever clobbered by it). -/
theorem c7_session_writes :
    (∀ (sOk : Bool) (r : Record) (a h p : String) (f : Bool) (env : SendCodeEnv),
       ((send_codeH sOk r a h p f env).1).session = r.session) ∧
    (∀ (sOk : Bool) (r : Record) (c p : String) (env : SignInEnv),
       ((sign_inH sOk r c p env).1).session ≠ r.session →
       env.authorized = true ∧ ((sign_inH sOk r c p env).1).session = some env.savedAuth) ∧
    (∀ (sOk : Bool) (r : Record) (ss aid ah : String) (env : ImportEnv),
       ((sessionImport sOk r ss aid ah env).1).session ≠ r.session →
       env.authorized = true ∧
         ((sessionImport sOk r ss aid ah env).1).session = some env.savedAuth) ∧
    (∀ (sOk : Bool) (r : Record) (aid ah : String) (core : QrStartCore),
       ((qr_startH sOk r aid ah core).1).session = r.session) ∧
    (∀ (sOk : Bool) (r : Record) (env : QrCheckEnv),
       ((qr_checkH sOk r env).1).session ≠ r.session →
       env.authorized = true ∧ ((qr_checkH sOk r env).1).session = some env.savedAuth) ∧
    (∀ (sOk : Bool) (r : Record) (pw : String) (env : Qr2faEnv),
       ((qr_2faH sOk r pw env).1).session ≠ r.session →
       env.authorized = true ∧ ((qr_2faH sOk r pw env).1).session = some env.savedAuth) ∧
    (∀ (sOk : Bool) (r : Record),
       ((disconnectH sOk r).1).session = none ∨ ((disconnectH sOk r).1).session = r.session) ∧
    (∀ (att : Bool) (env : LoadEnv) (d : Record),
       (loadSession att env).localAfter ≠ env.localFile →
       env.localFile = .ok d → truthy d.session = false) := by
  refine ⟨?_, ?_, ?_, ?_, ?_, ?_, ?_, ?_⟩
  · intro sOk r a h p f env
    simp only [send_codeH, sendCodeFresh]
    repeat' split
    all_goals simp
  · intro sOk r c p env
    cases sOk with
    | false => simp [sign_inH]
    | true =>
        by_cases hseq : truthy r.temp_session = false ∨ truthy r.phone_code_hash = false
        · simp [sign_inH, hseq]
        · rcases hsc : signCore env c p with ⟨res, at_⟩
          cases res with
          | error m => simp [sign_inH, hseq, hsc]
          | need2fa u => simp [sign_inH, hseq, hsc]
          | success s nm uid un =>
              intro _
              obtain ⟨ha, hs⟩ := signCore_success_inv env c p s nm uid un at_ hsc
              exact ⟨ha, by simp [sign_inH, hseq, hsc, hs]⟩
  · intro sOk r ss aid ah env
    simp only [sessionImport]
    repeat' split
    all_goals intro h
    all_goals simp_all
  · intro sOk r aid ah core
    simp only [qr_startH]
    repeat' split
    all_goals simp
  · intro sOk r env
    cases sOk with
    | false => simp [qr_checkH]
    | true =>
        by_cases hseq : truthy r.qr_temp_session = false ∨ recApiIdInt r = 0
        · simp [qr_checkH, hseq]
        · cases hqc : qrCheckCore env with
          | success s nm uid un ph =>
              intro _
              obtain ⟨ha, hs⟩ := qrCheckCore_success_inv env s nm uid un ph hqc
              exact ⟨ha, by simp [qr_checkH, hseq, hqc, hs]⟩
          | error m => simp [qr_checkH, hseq, hqc]
          | waitingNone => simp [qr_checkH, hseq, hqc]
          | waitingToken tk temp =>
              intro h
              exfalso
              apply h
              simp only [qr_checkH, hqc]
              rw [if_neg (show ¬(true = false) by simp), if_neg hseq]
              split <;> rfl
          | need2fa temp =>
              intro h
              exfalso
              apply h
              simp only [qr_checkH, hqc]
              rw [if_neg (show ¬(true = false) by simp), if_neg hseq]
              split <;> rfl
  · intro sOk r pw env
    cases sOk with
    | false => simp [qr_2faH]
    | true =>
        cases hqc : qr2faCore env with
        | success s nm uid un ph =>
            intro h
            obtain ⟨ha, hs⟩ := qr2faCore_success_inv env s nm uid un ph hqc
            refine ⟨ha, ?_⟩
            simp only [qr_2faH, hqc] at h ⊢
            rw [if_neg (show ¬(true = false) by simp)] at h ⊢
            by_cases hpw : pw = ""
            · rw [if_pos hpw] at h
              exact absurd rfl h
            · rw [if_neg hpw] at h ⊢
              by_cases hq : truthy r.qr_temp_session = false
              · rw [if_pos hq] at h
                exact absurd rfl h
              · rw [if_neg hq] at h ⊢
                simp [hs]
        | error m =>
            intro h
            exfalso
            apply h
            simp only [qr_2faH, hqc]
            repeat' split
            all_goals rfl
        | waitingNone =>
            intro h
            exfalso
            apply h
            simp only [qr_2faH, hqc]
            repeat' split
            all_goals rfl
        | waitingToken tk temp =>
            intro h
            exfalso
            apply h
            simp only [qr_2faH, hqc]
            repeat' split
            all_goals rfl
        | need2fa temp =>
            intro h
            exfalso
            apply h
            simp only [qr_2faH, hqc]
            repeat' split
            all_goals rfl
  · intro sOk r
    cases sOk <;> simp [disconnectH]
  · intro att env d hdiff hl
    obtain ⟨pa, _, _, _, _⟩ := c10_pull_requires_session.2 att env hdiff
    rcases loadSession_dichotomy env with ⟨d2, hl2, ht2⟩ | hfall
    · rw [loadSession_ok_truthy att env d2 hl2 ht2] at hdiff
      exact absurd rfl hdiff
    · exact hfall d hl

/-- A record with a pending code flow. -/
def rPend : Record := {temp_session := some "T", phone_code_hash := some "H"}

/-- A sign-in environment that authorizes and serializes to session S. -/
def envSig : SignInEnv := {savedAuth := "S"}

/-- Witness for C7 at a concrete input: a successful code confirmation
writes exactly the collaborator's serialized session. -/
theorem c7_witness :
    envSig.authorized = true ∧
    (sign_inH true rPend "1" "" envSig).1.session = some envSig.savedAuth :=
  c7_session_writes.2.1 true rPend "1" "" envSig (by decide)

/-! ## Claim C8 -/

/-- Claim C8: `/sign-in` with no pending code flow (no truthy `temp_session`
or no truthy `phone_code_hash`) fails fast with the "send the code first"
error and leaves the record unchanged; `/qr-login/2fa` with a password but
no truthy `qr_temp_session` fails fast with the "no active QR session"
error and leaves the record unchanged. -/
theorem c8_sequencing :
    (∀ (r : Record) (code pw : String) (env : SignInEnv),
       truthy r.temp_session = false ∨ truthy r.phone_code_hash = false →
       sign_inH true r code pw env = (r, .err "Сначала отправьте код", false)) ∧
    (∀ (r : Record) (pw : String) (env : Qr2faEnv),
       pw ≠ "" → truthy r.qr_temp_session = false →
       qr_2faH true r pw env = (r, .err "Нет активной QR сессии")) := by
  constructor
  · intro r code pw env h
    simp only [sign_inH]
    rw [if_neg (by simp), if_pos h]
  · intro r pw env h1 h2
    simp only [qr_2faH]
    rw [if_neg (by simp), if_neg h1, if_pos h2]

/-- Witness for C8 at concrete inputs: both operations on an empty record. -/
theorem c8_witness :
    sign_inH true {} "1" "" envSig = ({}, .err "Сначала отправьте код", false) ∧
    qr_2faH true {} "pw" {} = ({}, .err "Нет активной QR сессии") :=
  ⟨c8_sequencing.1 {} "1" "" envSig (by decide),
   c8_sequencing.2 {} "pw" {} (by decide) (by decide)⟩

/-! ## Claim C9 -/

/-- Claim C9: `/sign-in` with a pending code flow but neither a code nor a
password leaves the record unchanged, makes no authentication attempt
against the collaborator, and (when the connection itself does not fail)
returns the "enter code or password" error. -/
theorem c9_no_input (r : Record) (env : SignInEnv)
    (h1 : truthy r.temp_session = true) (h2 : truthy r.phone_code_hash = true) :
    (sign_inH true r "" "" env).1 = r ∧
    (sign_inH true r "" "" env).2.2 = false ∧
    (env.connectExc = none →
      (sign_inH true r "" "" env).2.1 = .err "Введите код или пароль") := by
  cases hc : env.connectExc with
  | none =>
      have hsc : signCore env "" "" = (.error "Введите код или пароль", false) := by
        simp [signCore, hc]
      simp [sign_inH, h1, h2, hsc]
  | some e =>
      have hsc : signCore env "" "" = (.error e, false) := by
        simp [signCore, hc]
      refine ⟨by simp [sign_inH, h1, h2, hsc], by simp [sign_inH, h1, h2, hsc], ?_⟩
      intro hcon
      simp [hc] at hcon

/-- Witness for C9 at a concrete input. -/
theorem c9_witness :
    (sign_inH true rPend "" "" envSig).1 = rPend ∧
    (sign_inH true rPend "" "" envSig).2.2 = false ∧
    (envSig.connectExc = none →
      (sign_inH true rPend "" "" envSig).2.1 = .err "Введите код или пароль") :=
  c9_no_input rPend envSig (by decide) (by decide)

end Replay
